import Mathlib

/-!
Verification of the 3D_Solar_System engine core against its specification.

The C++ sources are shallowly embedded over exact rational arithmetic:
float values become rationals, glm vectors and quaternions become records of
rationals, glm 4x4 and 3x3 matrices become Mathlib matrices over the rationals,
and the transcendental float-library routines (sinf, cosf, normalisation, which
involve square roots that rationals cannot represent) become explicit function
parameters of the model, so every theorem quantifies over them.  Fallible
operations return Option.  All definitions follow the corresponding source
files, which are cited next to each definition.
-/

namespace SolarSystem

/-- glm::vec3 over exact rationals (components x, y, z). -/
structure Vec3 where
  x : ℚ
  y : ℚ
  z : ℚ
deriving DecidableEq, Repr

/-- glm::quat over exact rationals (components w, x, y, z; w is the scalar part). -/
structure Quat where
  w : ℚ
  x : ℚ
  y : ℚ
  z : ℚ
deriving DecidableEq, Repr

/-- glm::mat4 in the usual mathematical row/column convention: the glm entry
written m[c][r] in column-major source code is entry (r, c) here. -/
abbrev Mat4 := Matrix (Fin 4) (Fin 4) ℚ

/-- glm::mat3, same convention as Mat4. -/
abbrev Mat3 := Matrix (Fin 3) (Fin 3) ℚ

/-- Component-wise vector addition (glm vec3 operator+). -/
def vadd (a b : Vec3) : Vec3 := ⟨a.x + b.x, a.y + b.y, a.z + b.z⟩

/-- Component-wise vector subtraction (glm vec3 operator-). -/
def vsub (a b : Vec3) : Vec3 := ⟨a.x - b.x, a.y - b.y, a.z - b.z⟩

/-- Component-wise vector product (glm vec3 operator*=, used by Transform::ScaleBy). -/
def vmul (a b : Vec3) : Vec3 := ⟨a.x * b.x, a.y * b.y, a.z * b.z⟩

/-- Squared Euclidean length of a vector; glm::length is its square root. -/
def lengthSq (v : Vec3) : ℚ := v.x * v.x + v.y * v.y + v.z * v.z

/-- glm quaternion Hamilton product (glm::qua operator*). -/
def qmul (p q : Quat) : Quat :=
  ⟨p.w * q.w - p.x * q.x - p.y * q.y - p.z * q.z,
   p.w * q.x + p.x * q.w + p.y * q.z - p.z * q.y,
   p.w * q.y + p.y * q.w + p.z * q.x - p.x * q.z,
   p.w * q.z + p.z * q.w + p.x * q.y - p.y * q.x⟩

/-- The float-library routines used by the engine that have no exact rational
counterpart (sine, cosine and the square roots hidden inside glm::normalize).
The embedding is parameterised by them, so every theorem below holds for all
implementations of these routines. -/
structure FloatOps where
  sinr : ℚ → ℚ
  cosr : ℚ → ℚ
  qnormalize : Quat → Quat
  vnormalize : Vec3 → Vec3

/-- glm::radians: multiplication by the fixed constant 0.01745329251994329576923690768489. -/
def radians (d : ℚ) : ℚ :=
  d * (1745329251994329576923690768489 / 100000000000000000000000000000000)

/-- glm::angleAxis(angle, axis): w = cos(angle/2), vector part = axis * sin(angle/2). -/
def angleAxis (ops : FloatOps) (angle : ℚ) (axis : Vec3) : Quat :=
  ⟨ops.cosr (angle / 2), ops.sinr (angle / 2) * axis.x,
   ops.sinr (angle / 2) * axis.y, ops.sinr (angle / 2) * axis.z⟩

/-- The glm::quat constructor from an Euler-angle vector (pitch, yaw, roll in
radians), as in glm type_quat: half-angle cosines c and sines s combined
component-wise. -/
def quatFromEuler (ops : FloatOps) (e : Vec3) : Quat :=
  let cx := ops.cosr (e.x / 2); let cy := ops.cosr (e.y / 2); let cz := ops.cosr (e.z / 2)
  let sx := ops.sinr (e.x / 2); let sy := ops.sinr (e.y / 2); let sz := ops.sinr (e.z / 2)
  ⟨cx * cy * cz + sx * sy * sz,
   sx * cy * cz - cx * sy * sz,
   cx * sy * cz + sx * cy * sz,
   cx * cy * sz - sx * sy * cz⟩

/-- glm::translate(mat4(1), v): identity with the translation in the last column. -/
def translateM (v : Vec3) : Mat4 :=
  Matrix.of ![![1, 0, 0, v.x], ![0, 1, 0, v.y], ![0, 0, 1, v.z], ![0, 0, 0, 1]]

/-- glm::scale(mat4(1), s): diagonal (s.x, s.y, s.z, 1). -/
def scaleM (s : Vec3) : Mat4 :=
  Matrix.of ![![s.x, 0, 0, 0], ![0, s.y, 0, 0], ![0, 0, s.z, 0], ![0, 0, 0, 1]]

/-- glm::toMat4(q): the quaternion-to-rotation-matrix polynomial of glm
mat3_cast, promoted to 4x4 with an identity last row and column. -/
def quatToMat4 (q : Quat) : Mat4 :=
  Matrix.of
    ![![1 - 2 * (q.y * q.y + q.z * q.z), 2 * (q.x * q.y - q.w * q.z),
       2 * (q.x * q.z + q.w * q.y), 0],
      ![2 * (q.x * q.y + q.w * q.z), 1 - 2 * (q.x * q.x + q.z * q.z),
       2 * (q.y * q.z - q.w * q.x), 0],
      ![2 * (q.x * q.z - q.w * q.y), 2 * (q.y * q.z + q.w * q.x),
       1 - 2 * (q.x * q.x + q.y * q.y), 0],
      ![0, 0, 0, 1]]

/-- The upper-left 3x3 linear part of a 4x4 matrix (the glm::mat3(mat4) cast). -/
def mat3OfMat4 (m : Mat4) : Mat3 :=
  Matrix.of fun i j => m (Fin.castSucc i) (Fin.castSucc j)

/-- glm::inverse for 3x3 matrices: the explicit cofactor formula of glm
func_matrix (entry (r, c) below is the glm column-major entry m[c][r]).
Division by a zero determinant yields zero in the exact model. -/
def inverse3 (m : Mat3) : Mat3 :=
  let k := 1 / (m 0 0 * (m 1 1 * m 2 2 - m 1 2 * m 2 1)
              - m 0 1 * (m 1 0 * m 2 2 - m 2 1 * m 2 0)
              + m 0 2 * (m 1 0 * m 2 1 - m 1 1 * m 2 0))
  Matrix.of
    ![![(m 1 1 * m 2 2 - m 1 2 * m 2 1) * k,
        -(m 0 1 * m 2 2 - m 0 2 * m 2 1) * k,
        (m 0 1 * m 1 2 - m 0 2 * m 1 1) * k],
      ![-(m 1 0 * m 2 2 - m 2 1 * m 2 0) * k,
        (m 0 0 * m 2 2 - m 0 2 * m 2 0) * k,
        -(m 0 0 * m 2 1 - m 0 2 * m 1 0) * k],
      ![(m 1 0 * m 2 1 - m 1 1 * m 2 0) * k,
        -(m 0 0 * m 2 1 - m 0 1 * m 2 0) * k,
        (m 0 0 * m 1 1 - m 0 1 * m 1 0) * k]]

/-! ## Transform (src/Include/Scene/Transform.h, src/src/Scene/Transform.cpp) -/

/-- The Transform component: position, quaternion rotation, per-axis scale,
plus the mutable lazy cache (dirty flag, model matrix cache and the normal
matrix cache, whose source spelling normalMatricCahe is kept). -/
structure Transform where
  position : Vec3
  rotation : Quat
  scale : Vec3
  dirty : Bool
  modelMatrixCache : Mat4
  normalMatricCahe : Mat3

/-- Both Transform constructors set dirty to true; the caches start as
whatever uninitialised memory holds, so the model takes them as arguments. -/
def Transform.construct (pos : Vec3) (rot : Quat) (scl : Vec3)
    (junkModel : Mat4) (junkNormal : Mat3) : Transform :=
  ⟨pos, rot, scl, true, junkModel, junkNormal⟩

/-- The model matrix recomputed from scratch from the current fields:
T * R * S exactly as Transform::RecalculateIfNeeded builds it. -/
def modelOf (t : Transform) : Mat4 :=
  translateM t.position * quatToMat4 t.rotation * scaleM t.scale

/-- Transform::RecalculateIfNeeded: early return when not dirty; otherwise
store T * R * S in the model cache, store the inverse transpose of its 3x3
linear part in the normal cache, and clear the dirty flag. -/
def Transform.RecalculateIfNeeded (t : Transform) : Transform :=
  if t.dirty = false then t
  else
    let m := translateM t.position * quatToMat4 t.rotation * scaleM t.scale
    { t with modelMatrixCache := m,
             normalMatricCahe := inverse3 (Matrix.transpose (mat3OfMat4 m)),
             dirty := false }

/-- Transform::GetModelMatrix: recalculate if needed, return the cached model
matrix.  The post-call state is returned too because the cache is mutable. -/
def Transform.GetModelMatrix (t : Transform) : Mat4 × Transform :=
  let t' := t.RecalculateIfNeeded
  (t'.modelMatrixCache, t')

/-- Transform::GetNormalMatrix: recalculate if needed, return the cached
normal matrix together with the post-call state. -/
def Transform.GetNormalMatrix (t : Transform) : Mat3 × Transform :=
  let t' := t.RecalculateIfNeeded
  (t'.normalMatricCahe, t')

/-- Transform::SetPosition. -/
def Transform.SetPosition (t : Transform) (pos : Vec3) : Transform :=
  { t with position := pos, dirty := true }

/-- Transform::Translate. -/
def Transform.Translate (t : Transform) (delta : Vec3) : Transform :=
  { t with position := vadd t.position delta, dirty := true }

/-- Transform::SetRotation: store the normalised quaternion. -/
def Transform.SetRotation (ops : FloatOps) (t : Transform) (q : Quat) : Transform :=
  { t with rotation := ops.qnormalize q, dirty := true }

/-- Transform::SetRotationEuler: convert degrees to radians, build the yaw,
pitch and roll axis-angle quaternions, compose yaw * pitch * roll, normalise. -/
def Transform.SetRotationEuler (ops : FloatOps) (t : Transform) (eularDegrees : Vec3) :
    Transform :=
  let rx := radians eularDegrees.x
  let ry := radians eularDegrees.y
  let rz := radians eularDegrees.z
  let qpitch := angleAxis ops rx ⟨1, 0, 0⟩
  let qYaw := angleAxis ops ry ⟨0, 1, 0⟩
  let qRoll := angleAxis ops rz ⟨0, 0, 1⟩
  { t with rotation := ops.qnormalize (qmul (qmul qYaw qpitch) qRoll), dirty := true }

/-- Transform::RotateEuler: delta quaternion from Euler radians, applied
before the current orientation, then normalised. -/
def Transform.RotateEuler (ops : FloatOps) (t : Transform) (eularDeltaDegrees : Vec3) :
    Transform :=
  let dq := quatFromEuler ops
    ⟨radians eularDeltaDegrees.x, radians eularDeltaDegrees.y, radians eularDeltaDegrees.z⟩
  { t with rotation := ops.qnormalize (qmul dq t.rotation), dirty := true }

/-- Transform::RotateAxisAngle: axis-angle delta around the normalised axis,
applied before the current orientation, then normalised. -/
def Transform.RotateAxisAngle (ops : FloatOps) (t : Transform) (axis : Vec3)
    (angleDegrees : ℚ) : Transform :=
  let dq := angleAxis ops (radians angleDegrees) (ops.vnormalize axis)
  { t with rotation := ops.qnormalize (qmul dq t.rotation), dirty := true }

/-- Transform::RotateByQuat. -/
def Transform.RotateByQuat (ops : FloatOps) (t : Transform) (delta : Quat) : Transform :=
  { t with rotation := ops.qnormalize (qmul delta t.rotation), dirty := true }

/-- Transform::SetScale. -/
def Transform.SetScale (t : Transform) (scl : Vec3) : Transform :=
  { t with scale := scl, dirty := true }

/-- Transform::ScaleBy: component-wise multiplication of the scale. -/
def Transform.ScaleBy (t : Transform) (factor : Vec3) : Transform :=
  { t with scale := vmul t.scale factor, dirty := true }

/-- One call against a Transform: any of the nine mutators, or either getter
(the getters mutate the hidden cache, so they are part of the call trace). -/
inductive TCmd where
  | setPosition (pos : Vec3)
  | translate (delta : Vec3)
  | setRotation (q : Quat)
  | setRotationEuler (e : Vec3)
  | rotateEuler (e : Vec3)
  | rotateAxisAngle (axis : Vec3) (angleDegrees : ℚ)
  | rotateByQuat (delta : Quat)
  | setScale (scl : Vec3)
  | scaleBy (factor : Vec3)
  | getModelMatrix
  | getNormalMatrix

/-- Execute one call on a Transform, returning the post-call state. -/
def execCmd (ops : FloatOps) (c : TCmd) (t : Transform) : Transform :=
  match c with
  | .setPosition pos => t.SetPosition pos
  | .translate delta => t.Translate delta
  | .setRotation q => Transform.SetRotation ops t q
  | .setRotationEuler e => Transform.SetRotationEuler ops t e
  | .rotateEuler e => Transform.RotateEuler ops t e
  | .rotateAxisAngle axis a => Transform.RotateAxisAngle ops t axis a
  | .rotateByQuat d => Transform.RotateByQuat ops t d
  | .setScale scl => t.SetScale scl
  | .scaleBy f => t.ScaleBy f
  | .getModelMatrix => (t.GetModelMatrix).2
  | .getNormalMatrix => (t.GetNormalMatrix).2

/-- Execute a sequence of calls from left to right. -/
def execCmds (ops : FloatOps) (cmds : List TCmd) (t : Transform) : Transform :=
  cmds.foldl (fun s c => execCmd ops c s) t

/-- The cache-validity invariant: whenever the dirty flag is clear, the cached
model matrix agrees with the matrix recomputed from the current fields. -/
def CacheConsistent (t : Transform) : Prop :=
  t.dirty = false → t.modelMatrixCache = modelOf t

lemma recalc_preserves_fields (t : Transform) :
    t.RecalculateIfNeeded.position = t.position ∧
    t.RecalculateIfNeeded.rotation = t.rotation ∧
    t.RecalculateIfNeeded.scale = t.scale := by
  unfold Transform.RecalculateIfNeeded
  by_cases h : t.dirty = false <;> simp [h]

lemma recalc_cache_correct (t : Transform) (h : CacheConsistent t) :
    t.RecalculateIfNeeded.modelMatrixCache = modelOf t ∧
    CacheConsistent t.RecalculateIfNeeded := by
  unfold Transform.RecalculateIfNeeded CacheConsistent modelOf at *
  by_cases hd : t.dirty = false
  · simp [hd]
    exact h hd
  · simp [hd]

lemma execCmd_preserves (ops : FloatOps) (c : TCmd) (t : Transform)
    (h : CacheConsistent t) : CacheConsistent (execCmd ops c t) := by
  cases c <;>
    simp only [execCmd, Transform.SetPosition, Transform.Translate,
      Transform.SetRotation, Transform.SetRotationEuler, Transform.RotateEuler,
      Transform.RotateAxisAngle, Transform.RotateByQuat, Transform.SetScale,
      Transform.ScaleBy, Transform.GetModelMatrix, Transform.GetNormalMatrix] <;>
    first
      | (intro hfalse; simp only [Transform.dirty] at hfalse; exact absurd hfalse (by simp))
      | exact (recalc_cache_correct t h).2

lemma execCmds_preserves (ops : FloatOps) (cmds : List TCmd) (t : Transform)
    (h : CacheConsistent t) : CacheConsistent (execCmds ops cmds t) := by
  induction cmds generalizing t with
  | nil => exact h
  | cons c cs ih => exact ih _ (execCmd_preserves ops c t h)

/-- C1: for every Transform and every finite sequence of mutator calls
(SetPosition, Translate, SetRotation, SetRotationEuler, RotateEuler,
RotateAxisAngle, RotateByQuat, SetScale, ScaleBy), interleaved arbitrarily
with getter calls, a subsequent GetModelMatrix() returns exactly
Translate(position) * RotationMatrix(rotation) * Scale(scale) recomputed from
the current fields: the lazy cache never serves a stale matrix.  The statement
quantifies over the float-library routines, the constructor arguments and the
uninitialised startup contents of the caches. -/
theorem transform_model_matrix_never_stale (ops : FloatOps) (cmds : List TCmd)
    (pos : Vec3) (rot : Quat) (scl : Vec3) (junkModel : Mat4) (junkNormal : Mat3) :
    (execCmds ops cmds (Transform.construct pos rot scl junkModel junkNormal)).GetModelMatrix.1
      = translateM (execCmds ops cmds (Transform.construct pos rot scl junkModel junkNormal)).position
      * quatToMat4 (execCmds ops cmds (Transform.construct pos rot scl junkModel junkNormal)).rotation
      * scaleM (execCmds ops cmds (Transform.construct pos rot scl junkModel junkNormal)).scale := by
  set t := execCmds ops cmds (Transform.construct pos rot scl junkModel junkNormal) with ht
  have hc : CacheConsistent t := by
    refine execCmds_preserves ops cmds _ ?_
    intro hfalse
    simp [Transform.construct] at hfalse
  have hm := (recalc_cache_correct t hc).1
  simpa [Transform.GetModelMatrix, modelOf] using hm

/-! ## Transform::LookAt (src/src/Scene/Transform.cpp, lines 165-182) -/

/-- The degenerate-case guard of Transform::LookAt.  The source computes
forwardDir = glm::normalize(target - position) and returns early when
glm::length(forwardDir) < 1e-6f.  Over exact arithmetic the square of the
length of v / length(v) is lengthSq(v) / lengthSq(v) (zero when v is zero,
because dividing by zero yields zero in the exact model, and one otherwise),
and comparing the two nonnegative quantities length(forwardDir) and 1e-6 is
equivalent to comparing their squares, so the guard is embedded in squared
form. -/
def lookAtGuardFires (position target : Vec3) : Bool :=
  let dsq := lengthSq (vsub target position)
  decide (dsq / dsq < ((1 : ℚ) / 1000000) ^ 2)

/-- Transform::LookAt.  When the guard does not fire, the source builds a view
matrix with glm::lookAt, transposes its rotation block and converts it to a
quaternion with glm::quat_cast; that computation involves square roots, so it
is abstracted as the parameter rotFn (a function of position, target and up),
and every theorem below quantifies over it.  The guard, the assignment to the
rotation field and the setting of the dirty flag follow the source exactly. -/
def Transform.LookAt (rotFn : Vec3 → Vec3 → Vec3 → Quat) (t : Transform)
    (target up : Vec3) : Transform :=
  if lookAtGuardFires t.position target then t
  else { t with rotation := rotFn t.position target up, dirty := true }

/-- A stand-in concrete rotation computation for evaluating LookAt at concrete
inputs; the counterexample below does not depend on its value. -/
def lookAtRotStub : Vec3 → Vec3 → Vec3 → Quat := fun _ _ _ => ⟨1, 0, 0, 0⟩

/-- A Transform with a clean cache (exactly the state of a default-constructed
Transform after one GetModelMatrix call, where all three matrices are the
identity). -/
def lookAtT0 : Transform := ⟨⟨0, 0, 0⟩, ⟨1, 0, 0, 0⟩, ⟨1, 1, 1⟩, false, 1, 1⟩

/-- A target 1e-7 away from the position of lookAtT0, well within the 1e-6
tolerance named by the claim. -/
def lookAtTarget : Vec3 := ⟨1 / 10000000, 0, 0⟩

/-- The default up vector of Transform::LookAt. -/
def lookAtUp : Vec3 := ⟨0, 1, 0⟩

/-- C3 counterexample: a target within 1e-6 of the position (distance 1e-7)
does NOT take the early return: the guard tests the length of the already
normalised direction, which is 1 for any nonzero offset, so LookAt recomputes
the rotation and sets the dirty flag, changing the Transform state. -/
theorem lookAt_within_epsilon_not_noop :
    lengthSq (vsub lookAtTarget lookAtT0.position) < ((1 : ℚ) / 1000000) ^ 2 ∧
    (Transform.LookAt lookAtRotStub lookAtT0 lookAtTarget lookAtUp).dirty = true ∧
    lookAtT0.dirty = false ∧
    Transform.LookAt lookAtRotStub lookAtT0 lookAtTarget lookAtUp ≠ lookAtT0 := by
  have hguard : lookAtGuardFires lookAtT0.position lookAtTarget = false := by
    simp only [lookAtGuardFires, lengthSq, vsub, lookAtTarget, lookAtT0,
      decide_eq_false_iff_not, not_lt]
    norm_num
  have hdirty : (Transform.LookAt lookAtRotStub lookAtT0 lookAtTarget lookAtUp).dirty = true := by
    simp [Transform.LookAt, hguard]
  refine ⟨by norm_num [lengthSq, vsub, lookAtTarget, lookAtT0], hdirty, rfl, ?_⟩
  intro h
  rw [h] at hdirty
  simp [lookAtT0] at hdirty

/-- C3 amended: LookAt is a no-op, leaving the whole Transform state
unchanged, exactly when the target equals the current position; this holds for
every state, every up vector and every rotation computation. -/
theorem lookAt_exact_target_noop (rotFn : Vec3 → Vec3 → Vec3 → Quat)
    (t : Transform) (up : Vec3) :
    Transform.LookAt rotFn t t.position up = t := by
  have hz : vsub t.position t.position = ⟨0, 0, 0⟩ := by simp [vsub]
  have hguard : lookAtGuardFires t.position t.position = true := by
    simp only [lookAtGuardFires, hz, lengthSq]
    norm_num
  simp [Transform.LookAt, hguard]

/-! ## Camera (src/Include/Scene/Camera.h, src/src/Scene/Camera.cpp)

The claim under test concerns the stored yaw and pitch angles only.  The
front, right and up vectors are derived data that UpdateCameraVectors
recomputes from yaw and pitch through sines and cosines; they never feed back
into the yaw/pitch update, so the embedding carries the two angles. -/

/-- The yaw/pitch state of a Camera.  The constructor initialises yaw to -90
and pitch to 0 (default facing negative Z). -/
structure Camera where
  yaw : ℚ
  pitch : ℚ
deriving DecidableEq, Repr

/-- Camera::Rotate, lines 38-48 of Camera.cpp: add the deltas, then clamp
pitch from above at 89 and clamp yaw (sic) from below at -89; the source
comment says the intent is to clamp pitch. -/
def Camera.Rotate (c : Camera) (yawDelta pitchDelta : ℚ) : Camera :=
  let yaw := c.yaw + yawDelta
  let pitch := c.pitch + pitchDelta
  let pitch := if pitch > 89 then 89 else pitch
  let yaw := if yaw < -89 then -89 else yaw
  ⟨yaw, pitch⟩

/-- The constructor state: yaw = -90, pitch = 0. -/
def Camera.construct : Camera := ⟨-90, 0⟩

/-- C4: evaluation at the failing input.  From the constructor state,
Rotate(0, -100) leaves pitch at -100 (the claimed lower clamp at -89 is
absent) and moves yaw from -90 to -89 (the code clamps yaw instead, although
the claim, the source comment and the header say yaw is accumulated
unclamped and pitch is clamped to plus or minus 89). -/
theorem camera_rotate_clamps_yaw_not_pitch :
    (Camera.construct.Rotate 0 (-100)).pitch = -100 ∧
    (Camera.construct.Rotate 0 (-100)).pitch < -89 ∧
    (Camera.construct.Rotate 0 (-100)).yaw = -89 ∧
    Camera.construct.yaw = -90 := by
  refine ⟨?_, ?_, ?_, rfl⟩ <;> norm_num [Camera.Rotate, Camera.construct]

/-! ## CameraManager (src/Include/Scene/CameraManager.h, src/src/Scene/CameraManager.cpp) -/

/-- CameraRenderData: name, camera pointer (none models nullptr; a number
stands for the pointee identity), active flag, viewport rectangle,
framebuffer id and render layer. -/
structure CameraRenderData where
  name : String
  camera : Option Nat
  active : Bool
  viewportX : ℤ
  viewportY : ℤ
  viewportW : ℤ
  viewportH : ℤ
  framebuffer : Nat
  renderLayer : ℤ
deriving DecidableEq, Repr

/-- CameraManager state: the name-keyed registry (std::unordered_map, modelled
as an association list with insert-or-replace semantics) and the separately
maintained activeCameras vector. -/
structure CameraManager where
  cameras : List (String × CameraRenderData)
  activeCameras : List CameraRenderData
deriving DecidableEq, Repr

/-- unordered_map::find: the value stored under a key, if any. -/
def mapFind (m : List (String × CameraRenderData)) (k : String) :
    Option CameraRenderData :=
  match m with
  | [] => none
  | p :: ps => if p.1 == k then some p.2 else mapFind ps k

/-- Insert-or-replace for the registry, the effect of cameras[name] = data on
std::unordered_map: replace the mapped value when the key exists, append a new
entry otherwise. -/
def mapInsert (m : List (String × CameraRenderData)) (k : String)
    (v : CameraRenderData) : List (String × CameraRenderData) :=
  if m.any (fun p => p.1 == k) then
    m.map (fun p => if p.1 == k then (k, v) else p)
  else
    m ++ [(k, v)]

/-- Replace the first element satisfying p, the effect of writing through the
iterator returned by std::find_if. -/
def replaceFirst (p : CameraRenderData → Bool) (v : CameraRenderData) :
    List CameraRenderData → List CameraRenderData
  | [] => []
  | a :: as => if p a then v :: as else a :: replaceFirst p v as

/-- CameraManager::AddCamera, lines 66-79: build the entry with active = true,
store it in the registry under the name, and unconditionally push_back a copy
onto activeCameras. -/
def CameraManager.AddCamera (m : CameraManager) (name : String)
    (camera : Option Nat) (vx vy vw vh : ℤ) (framebuffer : Nat) (layer : ℤ) :
    CameraManager :=
  let data : CameraRenderData := ⟨name, camera, true, vx, vy, vw, vh, framebuffer, layer⟩
  ⟨mapInsert m.cameras name data, m.activeCameras ++ [data]⟩

/-- CameraManager::SetActive, lines 81-112: none models the thrown
runtime_error for an unregistered name; otherwise the registry entry has its
active flag set, and activeCameras is synchronised: on deactivation the first
entry with the name is erased if present, on activation the first entry is
overwritten with the registry entry if present and appended otherwise. -/
def CameraManager.SetActive (m : CameraManager) (name : String) (active : Bool) :
    Option CameraManager :=
  match mapFind m.cameras name with
  | none => none
  | some entry =>
    let entry' := { entry with active := active }
    let cameras' := mapInsert m.cameras name entry'
    if active = false then
      some ⟨cameras', m.activeCameras.eraseP (fun d => d.name == name)⟩
    else if m.activeCameras.any (fun d => d.name == name) then
      some ⟨cameras', replaceFirst (fun d => d.name == name) entry' m.activeCameras⟩
    else
      some ⟨cameras', m.activeCameras ++ [entry']⟩

/-- CameraManager::GetActiveCameras: returns the activeCameras vector as is. -/
def CameraManager.GetActiveCameras (m : CameraManager) : List CameraRenderData :=
  m.activeCameras

/-- Number of entries of a given name in a camera list. -/
def countNamed (l : List CameraRenderData) (name : String) : Nat :=
  l.countP (fun d => d.name == name)

lemma mapFind_mapInsert (m : List (String × CameraRenderData)) (k : String)
    (v : CameraRenderData) : mapFind (mapInsert m k v) k = some v := by
  unfold mapInsert
  by_cases h : m.any (fun p => p.1 == k) = true
  · rw [if_pos h]
    induction m with
    | nil => simp at h
    | cons p ps ih =>
      cases hp : (p.1 == k) with
      | true => simp [mapFind, hp]
      | false =>
        simp only [List.any_cons, hp, Bool.false_or] at h
        simpa [mapFind, hp] using ih h
  · rw [if_neg h]
    induction m with
    | nil => simp [mapFind]
    | cons p ps ih =>
      simp only [List.any_cons, Bool.or_eq_true, not_or, Bool.not_eq_true] at h
      simpa [mapFind, h.1] using ih (by simp [h.2])

/-- C10: AddCamera always marks the inserted entry active: after any AddCamera
call, on any prior manager state, the registry entry under that name is the
inserted record with active = true, and GetActiveCameras() contains an entry
with that name, with no intervening SetActive call. -/
theorem addCamera_marks_active (m : CameraManager) (name : String)
    (camera : Option Nat) (vx vy vw vh : ℤ) (fb : Nat) (layer : ℤ) :
    mapFind (m.AddCamera name camera vx vy vw vh fb layer).cameras name
      = some ⟨name, camera, true, vx, vy, vw, vh, fb, layer⟩ ∧
    ((m.AddCamera name camera vx vy vw vh fb layer).GetActiveCameras.any
      (fun d => d.name == name)) = true := by
  constructor
  · exact mapFind_mapInsert m.cameras name _
  · simp [CameraManager.AddCamera, CameraManager.GetActiveCameras]

/-- An empty manager after two AddCamera calls that reuse the name X. -/
def mgrDup : CameraManager :=
  ((CameraManager.mk [] []).AddCamera "X" (some 1) 0 0 640 480 0 0).AddCamera
    "X" (some 1) 0 0 640 480 0 0

/-- C5: evaluation at the failing input.  AddCamera on an already registered
name replaces the registry entry but unconditionally appends a second copy to
activeCameras, so after registering X twice the registry holds one name while
GetActiveCameras() holds two entries named X: the active collection and the
registry diverge. -/
theorem addCamera_duplicate_breaks_sync :
    mgrDup.cameras.length = 1 ∧
    countNamed mgrDup.GetActiveCameras "X" = 2 := by
  decide

/-- C6 counterexample: on the duplicated state that AddCamera can reach,
SetActive("X", false) succeeds but erases only the first matching entry, so
GetActiveCameras() still contains an entry named X, contrary to the claim
that it never does. -/
theorem setActive_false_leaves_stale_duplicate :
    (mgrDup.SetActive "X" false).map
      (fun m => countNamed m.GetActiveCameras "X") = some 1 := by
  decide

lemma countP_eraseP_of_le_one {α : Type} (p : α → Bool) (l : List α)
    (h : l.countP p ≤ 1) : (l.eraseP p).countP p = 0 := by
  induction l with
  | nil => simp
  | cons a as ih =>
    cases ha : p a with
    | true =>
      rw [List.eraseP_cons_of_pos ha]
      rw [List.countP_cons, ha] at h
      simp at h
      exact List.countP_eq_zero.mpr (fun a ha => by simp [h a ha])
    | false =>
      rw [List.eraseP_cons_of_neg (by simp [ha])]
      simp only [List.countP_cons, ha] at h ⊢
      simpa using ih (by omega)

/-- C6 amended: for every manager whose active list holds at most one entry
named X (any state not corrupted by the duplicate-AddCamera defect) and whose
registry holds X, SetActive(X, false) removes every X entry from
GetActiveCameras(), and a subsequent SetActive(X, true) restores exactly one X
entry carrying the registered data with only the active flag set, so viewport,
framebuffer and renderLayer survive the round trip unchanged. -/
theorem setActive_roundtrip_restores_data (m : CameraManager) (x : String)
    (d : CameraRenderData) (hreg : mapFind m.cameras x = some d)
    (hname : d.name = x) (huniq : countNamed m.activeCameras x ≤ 1) :
    ∃ m₁ m₂,
      m.SetActive x false = some m₁ ∧
      countNamed m₁.GetActiveCameras x = 0 ∧
      m₁.SetActive x true = some m₂ ∧
      m₂.GetActiveCameras.filter (fun e => e.name == x)
        = [{ d with active := true }] := by
  have hstep1 : m.SetActive x false =
      some ⟨mapInsert m.cameras x { d with active := false },
            m.activeCameras.eraseP (fun e => e.name == x)⟩ := by
    unfold CameraManager.SetActive
    rw [hreg]
    rfl
  have hcount0 : (m.activeCameras.eraseP (fun e => e.name == x)).countP
      (fun e => e.name == x) = 0 :=
    countP_eraseP_of_le_one _ _ huniq
  refine ⟨⟨mapInsert m.cameras x { d with active := false },
            m.activeCameras.eraseP (fun e => e.name == x)⟩,
         ⟨mapInsert (mapInsert m.cameras x { d with active := false }) x
            { d with active := true },
          (m.activeCameras.eraseP (fun e => e.name == x)) ++ [{ d with active := true }]⟩,
         hstep1, ?_, ?_, ?_⟩
  · simpa [CameraManager.GetActiveCameras, countNamed] using hcount0
  · unfold CameraManager.SetActive
    rw [mapFind_mapInsert]
    have hany : ((m.activeCameras.eraseP (fun e => e.name == x)).any
        (fun e => e.name == x)) = false := by
      rw [List.any_eq_false]
      intro e he
      exact by simpa using (List.countP_eq_zero.mp hcount0) e he
    simp only [hany]
    rfl
  · have hfilter : (m.activeCameras.eraseP (fun e => e.name == x)).filter
        (fun e => e.name == x) = [] := by
      rw [List.filter_eq_nil_iff]
      exact List.countP_eq_zero.mp hcount0
    simp [CameraManager.GetActiveCameras, List.filter_append, hfilter, hname]

/-- An empty manager after a single AddCamera call registering X. -/
def mgrOne : CameraManager :=
  (CameraManager.mk [] []).AddCamera "X" (some 1) 0 0 640 480 0 7

/-- The record that mgrOne registers under X. -/
def mgrOneData : CameraRenderData := ⟨"X", some 1, true, 0, 0, 640, 480, 0, 7⟩

/-- Witness for the amended C6 theorem at the concrete manager mgrOne. -/
theorem setActive_roundtrip_restores_data_witness :
    mapFind mgrOne.cameras "X" = some mgrOneData ∧
    mgrOneData.name = "X" ∧
    countNamed mgrOne.activeCameras "X" ≤ 1 ∧
    (∃ m₁ m₂,
      mgrOne.SetActive "X" false = some m₁ ∧
      countNamed m₁.GetActiveCameras "X" = 0 ∧
      m₁.SetActive "X" true = some m₂ ∧
      m₂.GetActiveCameras.filter (fun e => e.name == "X")
        = [{ mgrOneData with active := true }]) :=
  ⟨by decide, by decide, by decide,
    setActive_roundtrip_restores_data mgrOne "X" mgrOneData (by decide)
      (by decide) (by decide)⟩

/-! ## Mesh (src/Include/Renderer/Mesh.h, src/src/Renderer/Mesh.cpp) -/

/-- glm::vec2 over exact rationals. -/
structure Vec2 where
  x : ℚ
  y : ℚ
deriving DecidableEq, Repr

/-- The Vertex record of Mesh.h: position, color, normal, texture coordinate
and tangent. -/
structure Vertex where
  position : Vec3
  color : Vec3
  normal : Vec3
  texCoord : Vec2
  tangent : Vec3
deriving DecidableEq, Repr

/-- A Mesh: the three GPU handles (VAO, VBO, EBO; zero models a null handle)
and the CPU-side vertex and index arrays. -/
structure Mesh where
  VAO : Nat
  VBO : Nat
  EBO : Nat
  vertices : List Vertex
  indices : List Nat
deriving DecidableEq, Repr

/-- The source literal const float PI = 3.14159265359f. -/
def spherePI : ℚ := 314159265359 / 100000000000

/-- The vertex loop of Mesh::CreateSphere, lines 147-167: for each stack ring
i in 0..stackCount and each sector j in 0..sectors, emit one vertex whose
position comes from the stack and sector angles, whose normal is the position
divided by the radius and normalised, and whose color encodes (j/sectors,
i/stackCount, 1).  The texture coordinate and tangent are never written by the
source (default-initialised); the model leaves them zero. -/
def CreateSphereVertices (ops : FloatOps) (radius : ℚ) (sectors stackCount : ℕ) :
    List Vertex :=
  List.flatMap (List.range (stackCount + 1)) (fun i =>
    let stackAngle := spherePI / 2 - i * (spherePI / stackCount)
    let xy := radius * ops.cosr stackAngle
    let z := radius * ops.sinr stackAngle
    (List.range (sectors + 1)).map (fun j =>
      let sectorAngle := j * (2 * spherePI / sectors)
      let px := xy * ops.cosr sectorAngle
      let py := xy * ops.sinr sectorAngle
      { position := ⟨px, py, z⟩,
        color := ⟨(j : ℚ) / sectors, (i : ℚ) / stackCount, 1⟩,
        normal := ops.vnormalize ⟨px / radius, py / radius, z / radius⟩,
        texCoord := ⟨0, 0⟩,
        tangent := ⟨0, 0, 0⟩ }))

/-- The index loop of Mesh::CreateSphere, lines 170-190: for each stack i and
sector j with k1 = i*(sectors+1)+j and k2 = k1+sectors+1, emit the triangle
(k1, k2, k1+1) except on the first ring and the triangle (k1+1, k2, k2+1)
except on the last ring. -/
def CreateSphereIndices (sectors stackCount : ℕ) : List Nat :=
  List.flatMap (List.range stackCount) (fun i =>
    List.flatMap (List.range sectors) (fun j =>
      let k1 := i * (sectors + 1) + j
      let k2 := k1 + sectors + 1
      (if i ≠ 0 then [k1, k2, k1 + 1] else []) ++
      (if i ≠ stackCount - 1 then [k1 + 1, k2, k2 + 1] else [])))

lemma sum_map_const_range (n c : ℕ) :
    ((List.range n).map (fun _ => c)).sum = n * c := by
  induction n with
  | zero => simp
  | succ k ih =>
    rw [List.range_succ, List.map_append, List.sum_append, ih]
    simp [Nat.succ_mul]

lemma sum_map_ite_eq_mem (n m : ℕ) (hm : m < n) :
    ((List.range n).map (fun i => if i = m then (0 : ℕ) else 3)).sum
      = 3 * (n - 1) := by
  induction n with
  | zero => omega
  | succ k ih =>
    rw [List.range_succ, List.map_append, List.sum_append]
    by_cases h : m < k
    · rw [ih h]
      have hk : k ≠ m := by omega
      simp [hk]
      omega
    · have hmk : m = k := by omega
      subst hmk
      have hconst : ((List.range m).map (fun i => if i = m then (0 : ℕ) else 3)).sum
          = ((List.range m).map (fun _ => (3 : ℕ))).sum := by
        apply congrArg List.sum
        apply List.map_congr_left
        intro i hi
        rw [List.mem_range] at hi
        simp [Nat.ne_of_lt hi]
      rw [hconst, sum_map_const_range]
      simp
      omega

lemma sum_map_add_nat {α : Type} (l : List α) (f g : α → ℕ) :
    (l.map (fun i => f i + g i)).sum = (l.map f).sum + (l.map g).sum := by
  induction l with
  | nil => simp
  | cons a as ih =>
    simp [ih]
    omega

lemma CreateSphereVertices_length (ops : FloatOps) (radius : ℚ)
    (sectors stackCount : ℕ) :
    (CreateSphereVertices ops radius sectors stackCount).length
      = (stackCount + 1) * (sectors + 1) := by
  unfold CreateSphereVertices
  rw [List.length_flatMap]
  simp [Function.comp_def, sum_map_const_range]

lemma CreateSphereIndices_length (sectors stackCount : ℕ) (h : 1 ≤ stackCount) :
    (CreateSphereIndices sectors stackCount).length = 6 * sectors * (stackCount - 1) := by
  unfold CreateSphereIndices
  rw [List.length_flatMap]
  simp only [Function.comp_def, List.length_flatMap, List.length_append,
    apply_ite List.length, List.length_cons, List.length_nil]
  norm_num
  simp only [sum_map_const_range, Nat.mul_add]
  rw [sum_map_add_nat]
  rw [List.sum_map_mul_left, List.sum_map_mul_left]
  rw [sum_map_ite_eq_mem stackCount 0 (by omega),
      sum_map_ite_eq_mem stackCount (stackCount - 1) (by omega)]
  set k := stackCount - 1
  ring

/-- C2: for every radius, every float-library implementation, and all
sectors at least 3 and stackCount at least 2, Mesh::CreateSphere generates
exactly (stackCount+1)*(sectors+1) vertices and exactly 6*sectors*(stackCount-1)
indices (the pole rings emit one triangle per quad instead of two). -/
theorem createSphere_vertex_index_counts (ops : FloatOps) (radius : ℚ)
    (sectors stackCount : ℕ) (h3 : 3 ≤ sectors) (h2 : 2 ≤ stackCount) :
    (CreateSphereVertices ops radius sectors stackCount).length
      = (stackCount + 1) * (sectors + 1) ∧
    (CreateSphereIndices sectors stackCount).length = 6 * sectors * (stackCount - 1) :=
  ⟨CreateSphereVertices_length ops radius sectors stackCount,
   CreateSphereIndices_length sectors stackCount (by omega)⟩

/-- A concrete instantiation of the abstract float-library routines, used only
to evaluate count statements that do not depend on them. -/
def floatOpsStub : FloatOps := ⟨fun _ => 0, fun _ => 0, fun q => q, fun v => v⟩

/-- Witness for C2 at the call CreateSphere(1.0, 36, 18) named by the claim:
703 vertices and 3672 indices. -/
theorem createSphere_counts_at_36_18 :
    3 ≤ 36 ∧ 2 ≤ 18 ∧
    (CreateSphereVertices floatOpsStub 1 36 18).length = 703 ∧
    (CreateSphereIndices 36 18).length = 3672 := by
  obtain ⟨hv, hi⟩ :=
    createSphere_vertex_index_counts floatOpsStub 1 36 18 (by omega) (by omega)
  exact ⟨by omega, by omega, hv.trans (by norm_num), hi.trans (by norm_num)⟩

/-- The GPU deletions actually performed by the Mesh destructor (lines
96-101): it always issues glDeleteVertexArrays and glDeleteBuffers on its
three handles, and the OpenGL specification defines deletion of the reserved
name 0 as silently ignored, so the GPU objects released are exactly the
nonzero handles. -/
def Mesh.destructorDeletions (m : Mesh) : List Nat :=
  [m.VAO, m.VBO, m.EBO].filter (fun h => h ≠ 0)

/-- The Mesh move constructor (lines 24-32): the new mesh takes the three
handles and the moved vectors, and the source mesh is invalidated with all
handles zeroed (its vectors are left moved-from, i.e. empty).  Returns
(constructed mesh, moved-from source). -/
def Mesh.moveConstruct (other : Mesh) : Mesh × Mesh :=
  (⟨other.VAO, other.VBO, other.EBO, other.vertices, other.indices⟩,
   ⟨0, 0, 0, [], []⟩)

/-- The Mesh move assignment for distinct objects (lines 35-56): the target
first releases its own GPU resources, then takes the handles and vectors of
the source, and the source is invalidated with zeroed handles.  Returns
(assigned target, moved-from source, GPU deletions performed on the old
target resources).  The self-assignment guard of the source makes a self move
a complete no-op, which this two-object model does not need to cover. -/
def Mesh.moveAssign (target other : Mesh) : Mesh × Mesh × List Nat :=
  (⟨other.VAO, other.VBO, other.EBO, other.vertices, other.indices⟩,
   ⟨0, 0, 0, [], []⟩,
   target.destructorDeletions)

/-- C8: move construction and move assignment transfer the VAO/VBO/EBO
handles and leave the moved-from Mesh with all three handles zero, so
destroying the moved-from Mesh performs no GPU deletions and the handles
cannot be freed twice. -/
theorem mesh_move_transfers_and_zeroes (m t : Mesh) :
    (Mesh.moveConstruct m).1.VAO = m.VAO ∧
    (Mesh.moveConstruct m).1.VBO = m.VBO ∧
    (Mesh.moveConstruct m).1.EBO = m.EBO ∧
    (Mesh.moveConstruct m).2.VAO = 0 ∧
    (Mesh.moveConstruct m).2.VBO = 0 ∧
    (Mesh.moveConstruct m).2.EBO = 0 ∧
    Mesh.destructorDeletions (Mesh.moveConstruct m).2 = [] ∧
    (Mesh.moveAssign t m).1.VAO = m.VAO ∧
    (Mesh.moveAssign t m).1.VBO = m.VBO ∧
    (Mesh.moveAssign t m).1.EBO = m.EBO ∧
    (Mesh.moveAssign t m).2.1.VAO = 0 ∧
    (Mesh.moveAssign t m).2.1.VBO = 0 ∧
    (Mesh.moveAssign t m).2.1.EBO = 0 ∧
    Mesh.destructorDeletions (Mesh.moveAssign t m).2.1 = [] :=
  ⟨rfl, rfl, rfl, rfl, rfl, rfl, rfl, rfl, rfl, rfl, rfl, rfl, rfl, rfl⟩

/-- Mesh::Draw (lines 112-121): when the VAO handle is zero or the index list
is empty, the error is logged and the method returns without a draw call;
otherwise it binds the VAO and issues exactly one indexed draw of
indices.size() elements.  The method is const: the mesh itself is unchanged.
Result: (whether the error was logged, the issued draw calls recorded as
their element counts). -/
def Mesh.Draw (m : Mesh) : Bool × List Nat :=
  if m.VAO = 0 ∨ m.indices = [] then (true, [])
  else (false, [m.indices.length])

/-- The mesh draw calls issued while a frame renders a list of meshes in
order: each mesh contributes its own draw calls; a guarded mesh contributes
none and the frame continues with the rest. -/
def frameDrawCalls (ms : List Mesh) : List Nat :=
  List.flatMap ms (fun m => (Mesh.Draw m).2)

/-- C9: drawing a Mesh with a zero VAO or an empty index list logs the error
and issues no draw call, leaving the mesh unchanged, and a frame containing
such a mesh still renders all its other meshes; a mesh with a nonzero VAO and
nonempty indices issues exactly one indexed draw of indices.size() elements. -/
theorem mesh_draw_guard (m : Mesh) :
    ((m.VAO = 0 ∨ m.indices = []) → m.Draw = (true, [])) ∧
    (m.VAO ≠ 0 → m.indices ≠ [] → m.Draw = (false, [m.indices.length])) ∧
    (∀ pre post : List Mesh, (m.VAO = 0 ∨ m.indices = []) →
      frameDrawCalls (pre ++ m :: post) = frameDrawCalls pre ++ frameDrawCalls post) := by
  refine ⟨fun h => by simp [Mesh.Draw, h], fun h1 h2 => by simp [Mesh.Draw, h1, h2],
    fun pre post h => ?_⟩
  have hd : m.Draw = (true, []) := by simp [Mesh.Draw, h]
  simp [frameDrawCalls, hd]

/-- A drawable mesh used by the C9 witness. -/
def goodMeshA : Mesh := ⟨1, 2, 3, [], [0, 1, 2]⟩

/-- A second drawable mesh used by the C9 witness. -/
def goodMeshB : Mesh := ⟨4, 5, 6, [], [0, 1, 2, 1, 2, 3]⟩

/-- A mesh violating the draw precondition (zero VAO), used by the C9 witness. -/
def badMesh : Mesh := ⟨0, 7, 8, [], [0, 1, 2]⟩

/-- Witness for C9 at concrete meshes: the guarded mesh draws nothing and the
frame around it is unaffected; the healthy mesh issues one draw. -/
theorem mesh_draw_guard_witness :
    (badMesh.VAO = 0 ∨ badMesh.indices = []) ∧
    badMesh.Draw = (true, []) ∧
    goodMeshA.VAO ≠ 0 ∧ goodMeshA.indices ≠ [] ∧
    goodMeshA.Draw = (false, [goodMeshA.indices.length]) ∧
    frameDrawCalls ([goodMeshA] ++ badMesh :: [goodMeshB])
      = frameDrawCalls [goodMeshA] ++ frameDrawCalls [goodMeshB] :=
  ⟨Or.inl rfl,
   (mesh_draw_guard badMesh).1 (Or.inl rfl),
   by decide, by decide,
   (mesh_draw_guard goodMeshA).2.1 (by decide) (by decide),
   (mesh_draw_guard badMesh).2.2 [goodMeshA] [goodMeshB] (Or.inl rfl)⟩

/-! ## Renderer (src/Include/Renderer/Renderer.h, src/src/Renderer/Renderer.cpp) -/

/-- A RenderObject as draw dispatch sees it: its render layer and an
identifier standing for the mesh behind the stored non-owning pointer.  The
per-object uniform uploads (model and normal matrices) do not change which
draw calls are issued, so they are not part of the draw-event model. -/
structure RenderObject where
  renderLayer : ℤ
  meshId : Nat
deriving DecidableEq, Repr

/-- Renderer state relevant to draw dispatch: whether the shader was loaded
during setup (the source checks the unique_ptr for null), and the per-frame
accumulated object list. -/
structure RendererState where
  shaderLoaded : Bool
  sceneObjects : List RenderObject
deriving DecidableEq, Repr

/-- Renderer::AddRenderObject (lines 170-175): append a non-owning reference
to the per-frame list. -/
def RendererState.AddRenderObject (r : RendererState) (obj : RenderObject) :
    RendererState :=
  { r with sceneObjects := r.sceneObjects ++ [obj] }

/-- Renderer::ResetSceneObjects (lines 177-180): clear the per-frame list. -/
def RendererState.ResetSceneObjects (r : RendererState) : RendererState :=
  { r with sceneObjects := [] }

/-- The mesh draw calls issued by Renderer::DrawScene (lines 68-133): nothing
when the shader is null; otherwise the loop visits the accumulated objects in
order and skips, via continue, every object whose renderLayer differs from
camData.renderLayer (the layer parameter is explicitly voided by the source
and camData.renderLayer is used), issuing obj->mesh.Draw() for the rest.
Each issued mesh draw is recorded by its mesh identifier. -/
def RendererState.DrawScene (r : RendererState) (camData : CameraRenderData)
    (layer : ℤ) : List Nat :=
  if r.shaderLoaded = false then []
  else
    List.flatMap r.sceneObjects (fun obj =>
      if obj.renderLayer ≠ camData.renderLayer then [] else [obj.meshId])

/-- Renderer::RenderFrame (lines 135-167): early return on an empty camera
vector; otherwise each active camera with a non-null camera pointer gets its
framebuffer and viewport bound, the buffers cleared, and DrawScene invoked
with the renderLayer carried by its camera data.  Recorded are the mesh draw
calls issued over the whole frame. -/
def RendererState.RenderFrame (r : RendererState)
    (cameras : List CameraRenderData) : List Nat :=
  if cameras = [] then []
  else
    List.flatMap cameras (fun camData =>
      if camData.active = false ∨ camData.camera = none then []
      else r.DrawScene camData camData.renderLayer)

lemma foldl_AddRenderObject (b : Bool) (acc objs : List RenderObject) :
    objs.foldl RendererState.AddRenderObject ⟨b, acc⟩ = ⟨b, acc ++ objs⟩ := by
  induction objs generalizing acc with
  | nil => simp
  | cons o os ih => simp [List.foldl_cons, RendererState.AddRenderObject, ih]

lemma flatMap_eq_nil_of_forall {α β : Type} (l : List α) (f : α → List β)
    (h : ∀ a ∈ l, f a = []) : List.flatMap l f = [] := by
  induction l with
  | nil => simp
  | cons a as ih =>
    rw [List.flatMap_cons, h a (List.mem_cons_self a as), List.nil_append]
    exact ih (fun a ha => h a (List.mem_cons_of_mem _ ha))

/-- C7: if every object submitted through AddRenderObject this frame carries
renderLayer 0 while the camera render data carries renderLayer 1, then
DrawScene for that camera, and the whole RenderFrame over it, issue zero mesh
draw calls: the layer filter skips every accumulated object. -/
theorem renderer_layer_filter_zero_draws (shaderLoaded : Bool)
    (objs : List RenderObject) (camData : CameraRenderData)
    (hobjs : ∀ o ∈ objs, o.renderLayer = 0) (hcam : camData.renderLayer = 1) :
    (objs.foldl RendererState.AddRenderObject ⟨shaderLoaded, []⟩).DrawScene
        camData camData.renderLayer = [] ∧
    (objs.foldl RendererState.AddRenderObject ⟨shaderLoaded, []⟩).RenderFrame
        [camData] = [] := by
  rw [foldl_AddRenderObject]
  have hscene : RendererState.DrawScene ⟨shaderLoaded, [] ++ objs⟩ camData
      camData.renderLayer = [] := by
    unfold RendererState.DrawScene
    by_cases hb : shaderLoaded = false
    · simp [hb]
    · simp only [hb, if_false]
      refine flatMap_eq_nil_of_forall _ _ (fun o ho => ?_)
      have := hobjs o (by simpa using ho)
      simp [this, hcam]
  refine ⟨hscene, ?_⟩
  unfold RendererState.RenderFrame
  simp only [List.flatMap_cons, List.flatMap_nil, List.append_nil]
  by_cases hc : camData.active = false ∨ camData.camera = none
  · simp [hc]
  · simp only [hc, if_false]
    simpa using hscene

/-- Concrete per-frame objects on layer 0, used by the C7 witness. -/
def layer0Objs : List RenderObject := [⟨0, 10⟩, ⟨0, 11⟩, ⟨0, 12⟩]

/-- A concrete camera render data on layer 1, used by the C7 witness. -/
def layer1Cam : CameraRenderData := ⟨"minimap", some 2, true, 0, 0, 100, 100, 0, 1⟩

/-- Witness for C7 at a concrete renderer: three submitted layer-0 objects,
one layer-1 camera, zero draw calls. -/
theorem renderer_layer_filter_zero_draws_witness :
    (∀ o ∈ layer0Objs, o.renderLayer = 0) ∧ layer1Cam.renderLayer = 1 ∧
    ((layer0Objs.foldl RendererState.AddRenderObject ⟨true, []⟩).DrawScene
        layer1Cam layer1Cam.renderLayer = [] ∧
     (layer0Objs.foldl RendererState.AddRenderObject ⟨true, []⟩).RenderFrame
        [layer1Cam] = []) :=
  ⟨by decide, by decide,
   renderer_layer_filter_zero_draws true layer0Objs layer1Cam (by decide) (by decide)⟩

end SolarSystem
